import Mathlib

/-
Formal model of the OAuth2 credential-cache modules of this repository:
`src/my_google_api_helpers.py` and `src/youtube_auth.py`.

Python strings are modelled as `List Char`.  Python `str.replace` with a
single-character needle is modelled by `replaceChar`, which substitutes a
replacement list for every occurrence of the needle character.
-/

/-! ### Definitions: embedding of the credential-cache modules -/

/-- Embedding of Python `s.replace(needle, repl)` for a one-character
needle: every occurrence of `needle` in `s` is replaced by `repl`. -/
def replaceChar (needle : Char) (repl : List Char) : List Char → List Char
  | [] => []
  | c :: cs => (if c = needle then repl else [c]) ++ replaceChar needle repl cs

/-- The literal `"_at_"` used by `normalize_account_id`. -/
def atToken : List Char := "_at_".data

/-- The literal `"_dot_"` used by `normalize_account_id`. -/
def dotToken : List Char := "_dot_".data

/-- `normalize_account_id` from `src/my_google_api_helpers.py` lines 39-40:
`account_email.replace("@", "_at_").replace(".", "_dot_")` (first all `@`
are replaced, then all `.` in the result). -/
def normalize_account_id (account_email : List Char) : List Char :=
  replaceChar '.' dotToken (replaceChar '@' atToken account_email)

namespace YoutubeAuth

/-- `normalize_account_id` from `src/youtube_auth.py` lines 16-17:
`account.replace("@", "_at_").replace(".", "_dot_")`. -/
def normalize_account_id (account : List Char) : List Char :=
  replaceChar '.' dotToken (replaceChar '@' atToken account)

end YoutubeAuth

/-- Per-character form of the normalization: `@ ↦ "_at_"`, `. ↦ "_dot_"`,
anything else maps to itself. -/
def normChar (c : Char) : List Char :=
  if c = '@' then atToken else if c = '.' then dotToken else [c]

/-- Inverse of the normalization on underscore-free inputs: decodes
`"_at_"` back to `@` and `"_dot_"` back to `.`; fails on any other use of
an underscore. -/
def unnorm : List Char → Option (List Char)
  | [] => some []
  | c :: rest =>
    if c = '_' then
      match rest with
      | 'a' :: 't' :: '_' :: rest2 => (unnorm rest2).map (fun l => '@' :: l)
      | 'd' :: 'o' :: 't' :: '_' :: rest2 => (unnorm rest2).map (fun l => '.' :: l)
      | _ => none
    else (unnorm rest).map (fun l => c :: l)

/-- The `"__"` separator of the token cache key. -/
def sep : List Char := ['_', '_']

/-- The cache key of `get_google_api_client`
(`src/my_google_api_helpers.py` line 90):
`normalize(identity) ++ "__" ++ api ++ "__" ++ profile`
(the on-disk name adds the `tokens/` directory and a `.json` suffix). -/
def tokenCacheKey (identity api profile : List Char) : List Char :=
  normalize_account_id identity ++ sep ++ api ++ sep ++ profile

/-- Decoder for token cache keys: splits off the profile and the api at the
rightmost `"__"` separators and un-normalizes the identity. -/
def parseKey (key : List Char) : Option (List Char × List Char × List Char) :=
  match key.reverse.dropWhile (fun c => c ≠ '_') with
  | '_' :: '_' :: r2 =>
    match r2.dropWhile (fun c => c ≠ '_') with
    | '_' :: '_' :: r4 =>
      match unnorm r4.reverse with
      | some x =>
        some (x, (r2.takeWhile (fun c => c ≠ '_')).reverse,
              (key.reverse.takeWhile (fun c => c ≠ '_')).reverse)
      | none => none
    | _ => none
  | _ => none

/-- A stored credential record.  `expired` abstracts the provider SDK's
clock-based expiry check on the record's expiry timestamp. -/
structure StoredRecord where
  access_token : Option (List Char)
  refresh_token : Option (List Char)
  granted_scopes : List (List Char)
  expired : Bool
deriving DecidableEq

/-- Content of an on-disk token file: either a well-formed serialized
record or malformed bytes. -/
inductive StoredFile
  | wellFormed (r : StoredRecord)
  | malformed
deriving DecidableEq

/-- Errors surfaced by the credential lifecycle (Python exceptions). -/
inductive OAuthError
  | unknownScopeProfile
  | corruptRecord
  | refreshFailed
  | missingClientCredentials
  | consentFlowFailed
deriving DecidableEq

/-- Primitive observable filesystem / network operations performed by a
call, in order. -/
inductive Event
  | mkdirTokens
  | openTrunc (path : List Char)
  | writeFile (path : List Char) (content : StoredFile)
  | chmodFile (path : List Char) (mode : Nat)
  | renameFile (src dst : List Char)
  | refreshCall
  | consentLaunch
deriving DecidableEq

/-- Environment of a call: configuration plus the outcomes of the external
collaborators (scope YAML, client-secret files on disk, environment
variables, the provider's refresh endpoint and the consent flow). -/
structure Env where
  scopesConfig : List Char → List Char → Option (List (List Char))
  secretExists : List Char → Bool
  envClientSecret : Option (List Char)
  ytEnvClientSecret : Option (List Char)
  refreshResult : Option (List Char)
  consentResult : Option StoredRecord

/-- Filesystem state: token files by path, the `tokens/` directory flag,
file permission modes, and the trace of primitive operations so far. -/
structure FS where
  store : List Char → Option StoredFile
  tokensDirExists : Bool
  perms : List Char → Option Nat
  trace : List Event

/-- Default mode bits of a file newly created by `open(..., "w")`
(0o644 under the usual umask). -/
def defaultMode : Nat := 420

/-- Owner-read/write-only mode 0o600. -/
def ownerOnlyMode : Nat := 384

/-- `Path("tokens").mkdir(exist_ok=True)` / `os.makedirs("tokens",
exist_ok=True)`: creates the directory when absent. -/
def FS.mkdirTokens (fs : FS) : FS :=
  if fs.tokensDirExists then fs
  else { fs with tokensDirExists := true, trace := fs.trace ++ [Event.mkdirTokens] }

/-- `with open(path, "w") as f: f.write(record_json)`: truncates (creating
with default permissions when absent) and writes the whole serialized
record. -/
def FS.saveToken (fs : FS) (path : List Char) (r : StoredRecord) : FS :=
  { fs with
    store := fun k => if k = path then some (StoredFile.wellFormed r) else fs.store k,
    perms := fun k => if k = path then some ((fs.perms path).getD defaultMode) else fs.perms k,
    trace := fs.trace ++ [Event.openTrunc path,
                          Event.writeFile path (StoredFile.wellFormed r)] }

/-- `os.chmod(path, mode)`. -/
def FS.chmodTo (fs : FS) (path : List Char) (m : Nat) : FS :=
  { fs with
    perms := fun k => if k = path then some m else fs.perms k,
    trace := fs.trace ++ [Event.chmodFile path m] }

def FS.addEvent (fs : FS) (e : Event) : FS :=
  { fs with trace := fs.trace ++ [e] }

/-- Modelled from the spec: the provider SDK's credential validity check,
abstracted per section 3 of the design — a record is valid iff it has a
non-expired access token whose granted scopes are a superset of the
requested scopes.  The SDK's own implementation is an external
collaborator whose code is not part of this repository. -/
def isValid (r : StoredRecord) (requested : List (List Char)) : Bool :=
  r.access_token.isSome && !r.expired
    && requested.all (fun s => r.granted_scopes.contains s)

/-- Modelled from the spec: `creds.refresh(Request())` on success
exchanges the refresh token for a new access token, leaving the other
fields in place. -/
def refreshRecord (r : StoredRecord) (t : List Char) : StoredRecord :=
  { r with access_token := some t, expired := false }

/-- Token file path used by `get_google_api_client`
(`my_google_api_helpers.py` line 90):
`tokens/{norm}__{api}__{profile}.json`. -/
def g_token_file (identity api profile : List Char) : List Char :=
  "tokens/".data ++ tokenCacheKey identity api profile ++ ".json".data

/-- Token file path used by `get_authenticated_youtube`
(`youtube_auth.py` line 32): `tokens/{norm}.json`. -/
def yt_token_file (account : List Char) : List Char :=
  "tokens/".data ++ normalize_account_id account ++ ".json".data

/-- Output of a call: the result (the credential record that `build`
would wrap, or the raised exception), the final filesystem, and the token
file content the call loaded (if any). -/
structure GOut where
  result : Except OAuthError StoredRecord
  fs : FS
  loaded : Option StoredFile

/-- `client_secret_file or os.getenv("GOOGLE_CLIENT_SECRET",
"secret/client_secret.json")` (`my_google_api_helpers.py` line 105). -/
def resolveClientSecretG (param : Option (List Char)) (env : Env) : List Char :=
  param.getD (env.envClientSecret.getD "secret/client_secret.json".data)

/-- `client_secret_file or os.getenv("YTCLI_CLIENT_SECRET",
"client_secret.json")` (`youtube_auth.py` lines 14 and 24). -/
def resolveClientSecretY (param : Option (List Char)) (env : Env) : List Char :=
  param.getD (env.ytEnvClientSecret.getD "client_secret.json".data)

/-- The consent branch of `get_google_api_client`
(`my_google_api_helpers.py` lines 104-111): resolve the client-secret
path, raise `FileNotFoundError` when it does not exist, otherwise run the
OAuth consent flow, then save the issued record
(lines 113-116, shared with the refresh branch). -/
def gConsentAndSave (token_file : List Char) (param : Option (List Char))
    (env : Env) (fs : FS) (loaded : Option StoredFile) : GOut :=
  let secret := resolveClientSecretG param env
  if env.secretExists secret then
    match env.consentResult with
    | none =>
      { result := Except.error OAuthError.consentFlowFailed,
        fs := fs.addEvent Event.consentLaunch, loaded := loaded }
    | some rc =>
      { result := Except.ok rc,
        fs := (fs.addEvent Event.consentLaunch).saveToken token_file rc,
        loaded := loaded }
  else
    { result := Except.error OAuthError.missingClientCredentials,
      fs := fs, loaded := loaded }

/-- Embedding of `get_google_api_client` (`my_google_api_helpers.py`
lines 77-118).  Resolves the scopes, creates `tokens/` if absent, loads
the token file (a malformed file makes the loader raise — there is no
try/except here), returns a valid record unchanged, otherwise refreshes
(a refresh failure propagates — no try/except) or runs the consent flow,
and saves the new record with a plain truncating write (no chmod, no
temp-file rename). -/
def get_google_api_client (api_name scope_profile account_email : List Char)
    (client_secret_file : Option (List Char)) (env : Env) (fs0 : FS) : GOut :=
  match env.scopesConfig api_name scope_profile with
  | none =>
    { result := Except.error OAuthError.unknownScopeProfile, fs := fs0, loaded := none }
  | some scopes =>
    let fs1 := fs0.mkdirTokens
    let token_file := g_token_file account_email api_name scope_profile
    match fs1.store token_file with
    | some StoredFile.malformed =>
      { result := Except.error OAuthError.corruptRecord, fs := fs1,
        loaded := some StoredFile.malformed }
    | some (StoredFile.wellFormed r) =>
      if isValid r scopes then
        { result := Except.ok r, fs := fs1, loaded := some (StoredFile.wellFormed r) }
      else if r.expired && r.refresh_token.isSome then
        match env.refreshResult with
        | none =>
          { result := Except.error OAuthError.refreshFailed,
            fs := fs1.addEvent Event.refreshCall,
            loaded := some (StoredFile.wellFormed r) }
        | some t =>
          { result := Except.ok (refreshRecord r t),
            fs := (fs1.addEvent Event.refreshCall).saveToken token_file (refreshRecord r t),
            loaded := some (StoredFile.wellFormed r) }
      else
        gConsentAndSave token_file client_secret_file env fs1
          (some (StoredFile.wellFormed r))
    | none => gConsentAndSave token_file client_secret_file env fs1 none

/-- The consent branch of `get_authenticated_youtube` (`youtube_auth.py`
lines 52-55) followed by the save and chmod of lines 57-59. -/
def ytConsentAndSave (token_file : List Char) (env : Env) (fs : FS)
    (loaded : Option StoredFile) : GOut :=
  match env.consentResult with
  | none =>
    { result := Except.error OAuthError.consentFlowFailed,
      fs := fs.addEvent Event.consentLaunch, loaded := loaded }
  | some rc =>
    { result := Except.ok rc,
      fs := ((fs.addEvent Event.consentLaunch).saveToken token_file rc).chmodTo
              token_file ownerOnlyMode,
      loaded := loaded }

/-- Embedding of `get_authenticated_youtube` (`youtube_auth.py`
lines 19-61).  Checks the client-secret path before touching the disk,
creates `tokens/`, loads `tokens/{norm}.json` treating a malformed file
as a cache miss (try/except), returns a valid record unchanged, otherwise
tries a refresh (failures are caught and fall through), re-checks
validity, runs the consent flow when needed, and saves the record with a
truncating write followed by `os.chmod(token_file, 0o600)`.  The
`headless` flag only selects between `run_console` and
`run_local_server`; both are the same consent-flow collaborator here. -/
def get_authenticated_youtube (account : List Char)
    (scopes : Option (List (List Char))) (client_secret_file : Option (List Char))
    (headless : Bool) (env : Env) (fs0 : FS) : GOut :=
  let scs := scopes.getD ["https://www.googleapis.com/auth/youtube.readonly".data]
  let secret := resolveClientSecretY client_secret_file env
  if env.secretExists secret then
    let fs1 := fs0.mkdirTokens
    let token_file := yt_token_file account
    let loaded := fs1.store token_file
    match loaded with
    | some (StoredFile.wellFormed r) =>
      if isValid r scs then
        { result := Except.ok r, fs := fs1, loaded := loaded }
      else if r.expired && r.refresh_token.isSome then
        match env.refreshResult with
        | some t =>
          if isValid (refreshRecord r t) scs then
            { result := Except.ok (refreshRecord r t),
              fs := ((fs1.addEvent Event.refreshCall).saveToken token_file
                      (refreshRecord r t)).chmodTo token_file ownerOnlyMode,
              loaded := loaded }
          else
            ytConsentAndSave token_file env (fs1.addEvent Event.refreshCall) loaded
        | none =>
          ytConsentAndSave token_file env (fs1.addEvent Event.refreshCall) loaded
      else
        ytConsentAndSave token_file env fs1 loaded
    | _ => ytConsentAndSave token_file env fs1 loaded
  else
    { result := Except.error OAuthError.missingClientCredentials, fs := fs0,
      loaded := none }

/-- A fresh, valid record granting scope `s1`. -/
def sampleRecord : StoredRecord :=
  ⟨some "tok".data, some "rtok".data, ["s1".data], false⟩

/-- An expired record with a refresh token and no granted scopes. -/
def staleRecord : StoredRecord :=
  ⟨some "tok".data, some "rtok".data, [], true⟩

/-- Empty disk: no token files, no `tokens/` directory. -/
def fsEmpty : FS := ⟨fun _ => none, false, fun _ => none, []⟩

/-- A sample environment: every profile named `p` resolves to scope `s1`,
the client-secret file exists, refresh fails, consent succeeds with
`sampleRecord`. -/
def baseEnv : Env :=
  { scopesConfig := fun _ q => if q = "p".data then some ["s1".data] else none,
    secretExists := fun _ => true,
    envClientSecret := none,
    ytEnvClientSecret := none,
    refreshResult := none,
    consentResult := some sampleRecord }

/-- Characters safe in a filesystem path segment without escaping:
alphanumerics, underscore and hyphen. -/
def isSafeChar (c : Char) : Bool := c.isAlphanum || c == '_' || c == '-'

/-- Filesystem for the C3 witness: a valid record cached at the key of
`(u@x, g, p)`, `tokens/` present. -/
def c3FS : FS :=
  ⟨fun k => if k = g_token_file "u@x".data "g".data "p".data
      then some (StoredFile.wellFormed sampleRecord) else none,
    true, fun _ => none, []⟩

instance : DecidableEq (Except OAuthError StoredRecord) := fun x y =>
  match x, y with
  | Except.ok a, Except.ok b =>
    if h : a = b then isTrue (by rw [h])
    else isFalse (fun hc => h (Except.ok.inj hc))
  | Except.error a, Except.error b =>
    if h : a = b then isTrue (by rw [h])
    else isFalse (fun hc => h (Except.error.inj hc))
  | Except.ok _, Except.error _ => isFalse (fun hc => Except.noConfusion hc)
  | Except.error _, Except.ok _ => isFalse (fun hc => Except.noConfusion hc)

/-- Filesystem for the C4 and C7 concrete runs: a stale record at both
modules' token files. -/
def c4FS : FS :=
  ⟨fun k => if k = g_token_file "u".data "g".data "p".data
      then some (StoredFile.wellFormed staleRecord)
      else if k = yt_token_file "u".data then some (StoredFile.wellFormed staleRecord)
      else none,
    false, fun _ => none, []⟩

/-- Filesystem for the C7 concrete runs: a malformed token file at the
`get_google_api_client` key. -/
def c7FS : FS :=
  ⟨fun k => if k = g_token_file "u".data "g".data "p".data
      then some StoredFile.malformed else none,
    false, fun _ => none, []⟩

/-- Environment in which no client-credentials file exists anywhere. -/
def noSecretEnv : Env := { baseEnv with secretExists := fun _ => false }

/-- What actually holds of every save in this codebase: all new events
avoid `renameFile`, truncate-opens and writes target only the given token
file, and every write is one whole well-formed record equal to the call's
result and to the final store content at that path. -/
def wholeRecordSave (tf : List Char) (out : GOut) (newEv : List Event) : Prop :=
  (∀ s d, Event.renameFile s d ∉ newEv)
  ∧ (∀ p, Event.openTrunc p ∈ newEv → p = tf)
  ∧ (∀ p c, Event.writeFile p c ∈ newEv → p = tf
      ∧ ∃ r, c = StoredFile.wellFormed r ∧ out.result = Except.ok r
          ∧ out.fs.store p = some (StoredFile.wellFormed r))

/-- Whether an event is a file rename. -/
def isRename : Event → Bool
  | Event.renameFile _ _ => true
  | _ => false

/-- Whether an event is a chmod. -/
def isChmod : Event → Bool
  | Event.chmodFile _ _ => true
  | _ => false

/-! ### Theorems -/

theorem replaceChar_append (n : Char) (r l1 l2 : List Char) :
    replaceChar n r (l1 ++ l2) = replaceChar n r l1 ++ replaceChar n r l2 := by
  induction l1 with
  | nil => rfl
  | cons c cs ih => simp [replaceChar, ih, List.append_assoc]

theorem normalize_nil : normalize_account_id [] = [] := rfl

theorem normalize_cons (c : Char) (cs : List Char) :
    normalize_account_id (c :: cs) = normChar c ++ normalize_account_id cs := by
  by_cases h1 : c = '@'
  · subst h1
    show replaceChar '.' dotToken (replaceChar '@' atToken ('@' :: cs)) = _
    rw [show replaceChar '@' atToken ('@' :: cs)
          = atToken ++ replaceChar '@' atToken cs by simp [replaceChar]]
    rw [replaceChar_append]
    rw [show replaceChar '.' dotToken atToken = atToken from rfl]
    simp [normChar, normalize_account_id]
  · by_cases h2 : c = '.'
    · subst h2
      show replaceChar '.' dotToken (replaceChar '@' atToken ('.' :: cs)) = _
      rw [show replaceChar '@' atToken ('.' :: cs)
            = ['.'] ++ replaceChar '@' atToken cs by simp [replaceChar]]
      rw [replaceChar_append]
      rw [show replaceChar '.' dotToken ['.'] = dotToken by simp [replaceChar]]
      simp [normChar, normalize_account_id]
    · show replaceChar '.' dotToken (replaceChar '@' atToken (c :: cs)) = _
      rw [show replaceChar '@' atToken (c :: cs)
            = [c] ++ replaceChar '@' atToken cs by simp [replaceChar, h1]]
      rw [replaceChar_append]
      rw [show replaceChar '.' dotToken [c] = [c] by simp [replaceChar, h2]]
      simp [normChar, normalize_account_id, h1, h2]

theorem unnorm_cons_ne (c : Char) (rest : List Char) (h : ¬ c = '_') :
    unnorm (c :: rest) = (unnorm rest).map (fun l => c :: l) := by
  rw [unnorm.eq_def]
  simp [h]

theorem unnorm_normalize (l : List Char) (h : '_' ∉ l) :
    unnorm (normalize_account_id l) = some l := by
  induction l with
  | nil => rfl
  | cons c cs ih =>
    have hc : ¬ c = '_' := by
      intro e
      exact h (by rw [e]; exact List.mem_cons_self _ _)
    have hcs : '_' ∉ cs := fun m => h (List.mem_cons_of_mem _ m)
    rw [normalize_cons]
    by_cases h1 : c = '@'
    · subst h1
      rw [show normChar '@' = atToken from rfl]
      rw [show atToken ++ normalize_account_id cs
            = '_' :: 'a' :: 't' :: '_' :: normalize_account_id cs from rfl]
      rw [show unnorm ('_' :: 'a' :: 't' :: '_' :: normalize_account_id cs)
            = (unnorm (normalize_account_id cs)).map (fun l => '@' :: l) by
          simp [unnorm]]
      rw [ih hcs]
      rfl
    · by_cases h2 : c = '.'
      · subst h2
        rw [show normChar '.' = dotToken from rfl]
        rw [show dotToken ++ normalize_account_id cs
              = '_' :: 'd' :: 'o' :: 't' :: '_' :: normalize_account_id cs from rfl]
        rw [show unnorm ('_' :: 'd' :: 'o' :: 't' :: '_' :: normalize_account_id cs)
              = (unnorm (normalize_account_id cs)).map (fun l => '.' :: l) by
            simp [unnorm]]
        rw [ih hcs]
        rfl
      · rw [show normChar c = [c] by simp [normChar, h1, h2]]
        rw [show ([c] : List Char) ++ normalize_account_id cs
              = c :: normalize_account_id cs from rfl]
        rw [unnorm_cons_ne c _ hc, ih hcs]
        rfl

theorem takeWhile_append_all (p : Char → Bool) (l r : List Char)
    (hl : ∀ c ∈ l, p c = true) (hr : ∀ c, r.head? = some c → p c = false) :
    (l ++ r).takeWhile p = l := by
  induction l with
  | nil =>
    cases r with
    | nil => rfl
    | cons c rs =>
      have := hr c rfl
      simp [List.takeWhile_cons, this]
  | cons c cs ih =>
    have hpc := hl c (List.mem_cons_self _ _)
    simp only [List.cons_append, List.takeWhile_cons, hpc, if_true]
    rw [ih (fun d hd => hl d (List.mem_cons_of_mem _ hd))]

theorem dropWhile_append_all (p : Char → Bool) (l r : List Char)
    (hl : ∀ c ∈ l, p c = true) (hr : ∀ c, r.head? = some c → p c = false) :
    (l ++ r).dropWhile p = r := by
  induction l with
  | nil =>
    cases r with
    | nil => rfl
    | cons c rs =>
      have := hr c rfl
      simp [List.dropWhile_cons, this]
  | cons c cs ih =>
    have hpc := hl c (List.mem_cons_self _ _)
    simp only [List.cons_append, List.dropWhile_cons, hpc, if_true]
    exact ih (fun d hd => hl d (List.mem_cons_of_mem _ hd))

theorem parseKey_tokenCacheKey (x a p : List Char)
    (hx : '_' ∉ x) (ha : '_' ∉ a) (hp : '_' ∉ p) :
    parseKey (tokenCacheKey x a p) = some (x, a, p) := by
  have hrev : (tokenCacheKey x a p).reverse
      = p.reverse ++ ('_' :: '_' :: (a.reverse ++ ('_' :: '_' ::
          (normalize_account_id x).reverse))) := by
    simp [tokenCacheKey, sep, List.reverse_append, List.append_assoc]
  have hpall : ∀ c ∈ p.reverse, (fun c => decide (c ≠ '_')) c = true := by
    intro c hc
    have : c ∈ p := List.mem_reverse.mp hc
    simp only [decide_eq_true_eq]
    intro e
    exact hp (e ▸ this)
  have haall : ∀ c ∈ a.reverse, (fun c => decide (c ≠ '_')) c = true := by
    intro c hc
    have : c ∈ a := List.mem_reverse.mp hc
    simp only [decide_eq_true_eq]
    intro e
    exact ha (e ▸ this)
  have hhead : ∀ (r : List Char) (c : Char),
      ('_' :: r).head? = some c → (fun c => decide (c ≠ '_')) c = false := by
    intro r c hc
    simp only [List.head?_cons, Option.some.injEq] at hc
    subst hc
    simp
  have hdrop1 : (tokenCacheKey x a p).reverse.dropWhile (fun c => c ≠ '_')
      = '_' :: '_' :: (a.reverse ++ ('_' :: '_' ::
          (normalize_account_id x).reverse)) := by
    rw [hrev]
    exact dropWhile_append_all _ _ _ hpall (hhead _)
  have htake1 : (tokenCacheKey x a p).reverse.takeWhile (fun c => c ≠ '_')
      = p.reverse := by
    rw [hrev]
    exact takeWhile_append_all _ _ _ hpall (hhead _)
  have hdrop2 : (a.reverse ++ ('_' :: '_' ::
      (normalize_account_id x).reverse)).dropWhile (fun c => c ≠ '_')
      = '_' :: '_' :: (normalize_account_id x).reverse :=
    dropWhile_append_all _ _ _ haall (hhead _)
  have htake2 : (a.reverse ++ ('_' :: '_' ::
      (normalize_account_id x).reverse)).takeWhile (fun c => c ≠ '_')
      = a.reverse :=
    takeWhile_append_all _ _ _ haall (hhead _)
  unfold parseKey
  rw [hdrop1]
  simp only [hdrop2, htake2, htake1, List.reverse_reverse]
  rw [unnorm_normalize x hx]

/-- Injectivity of the cache-key function on underscore-free components. -/
theorem tokenCacheKey_inj (id1 a1 p1 id2 a2 p2 : List Char)
    (h1 : '_' ∉ id1) (h2 : '_' ∉ a1) (h3 : '_' ∉ p1)
    (h4 : '_' ∉ id2) (h5 : '_' ∉ a2) (h6 : '_' ∉ p2)
    (hkey : tokenCacheKey id1 a1 p1 = tokenCacheKey id2 a2 p2) :
    id1 = id2 ∧ a1 = a2 ∧ p1 = p2 := by
  have e1 := parseKey_tokenCacheKey id1 a1 p1 h1 h2 h3
  have e2 := parseKey_tokenCacheKey id2 a2 p2 h4 h5 h6
  rw [hkey, e2] at e1
  have h := Option.some.inj e1
  rw [Prod.mk.injEq, Prod.mk.injEq] at h
  exact ⟨h.1.symm, h.2.1.symm, h.2.2.symm⟩

example : tokenCacheKey "a@b.com".data "gmail".data "send".data
    = "a_at_b_dot_com__gmail__send".data := by decide

@[simp] theorem FS.mkdirTokens_store (fs : FS) : fs.mkdirTokens.store = fs.store := by
  unfold FS.mkdirTokens
  split <;> rfl

@[simp] theorem FS.mkdirTokens_perms (fs : FS) : fs.mkdirTokens.perms = fs.perms := by
  unfold FS.mkdirTokens
  split <;> rfl

theorem FS.mkdirTokens_trace (fs : FS) :
    fs.mkdirTokens.trace = fs.trace
      ∨ fs.mkdirTokens.trace = fs.trace ++ [Event.mkdirTokens] := by
  unfold FS.mkdirTokens
  split
  · exact Or.inl rfl
  · exact Or.inr rfl

@[simp] theorem FS.addEvent_store (fs : FS) (e : Event) :
    (fs.addEvent e).store = fs.store := rfl

@[simp] theorem FS.addEvent_perms (fs : FS) (e : Event) :
    (fs.addEvent e).perms = fs.perms := rfl

@[simp] theorem FS.addEvent_trace (fs : FS) (e : Event) :
    (fs.addEvent e).trace = fs.trace ++ [e] := rfl

@[simp] theorem FS.saveToken_trace (fs : FS) (path : List Char) (r : StoredRecord) :
    (fs.saveToken path r).trace
      = fs.trace ++ [Event.openTrunc path, Event.writeFile path (StoredFile.wellFormed r)] := rfl

theorem FS.saveToken_store_self (fs : FS) (path : List Char) (r : StoredRecord) :
    (fs.saveToken path r).store path = some (StoredFile.wellFormed r) := by
  simp [FS.saveToken]

theorem FS.saveToken_store_ne (fs : FS) (path : List Char) (r : StoredRecord)
    (k : List Char) (hk : ¬ k = path) : (fs.saveToken path r).store k = fs.store k := by
  simp [FS.saveToken, hk]

@[simp] theorem FS.chmodTo_store (fs : FS) (path : List Char) (m : Nat) :
    (fs.chmodTo path m).store = fs.store := rfl

@[simp] theorem FS.chmodTo_trace (fs : FS) (path : List Char) (m : Nat) :
    (fs.chmodTo path m).trace = fs.trace ++ [Event.chmodFile path m] := rfl

theorem FS.chmodTo_perms_self (fs : FS) (path : List Char) (m : Nat) :
    (fs.chmodTo path m).perms path = some m := by
  simp [FS.chmodTo]

@[simp] theorem drop_len_append {α : Type} (l r : List α) :
    (l ++ r).drop l.length = r := List.drop_left l r

/-- Exhaustive case analysis of one `get_google_api_client` call. -/
theorem g_cases (api_name scope_profile account : List Char)
    (sp : Option (List Char)) (env : Env) (fs0 : FS) :
    (env.scopesConfig api_name scope_profile = none
      ∧ get_google_api_client api_name scope_profile account sp env fs0
          = ⟨Except.error OAuthError.unknownScopeProfile, fs0, none⟩)
    ∨ ∃ scopes, env.scopesConfig api_name scope_profile = some scopes ∧
      ((fs0.store (g_token_file account api_name scope_profile) = some StoredFile.malformed
          ∧ get_google_api_client api_name scope_profile account sp env fs0
              = ⟨Except.error OAuthError.corruptRecord, fs0.mkdirTokens,
                  some StoredFile.malformed⟩)
      ∨ (∃ r, fs0.store (g_token_file account api_name scope_profile)
              = some (StoredFile.wellFormed r)
          ∧ isValid r scopes = true
          ∧ get_google_api_client api_name scope_profile account sp env fs0
              = ⟨Except.ok r, fs0.mkdirTokens, some (StoredFile.wellFormed r)⟩)
      ∨ (∃ r, fs0.store (g_token_file account api_name scope_profile)
              = some (StoredFile.wellFormed r)
          ∧ isValid r scopes = false
          ∧ (r.expired && r.refresh_token.isSome) = true
          ∧ env.refreshResult = none
          ∧ get_google_api_client api_name scope_profile account sp env fs0
              = ⟨Except.error OAuthError.refreshFailed,
                  (fs0.mkdirTokens).addEvent Event.refreshCall,
                  some (StoredFile.wellFormed r)⟩)
      ∨ (∃ r t, fs0.store (g_token_file account api_name scope_profile)
              = some (StoredFile.wellFormed r)
          ∧ isValid r scopes = false
          ∧ (r.expired && r.refresh_token.isSome) = true
          ∧ env.refreshResult = some t
          ∧ get_google_api_client api_name scope_profile account sp env fs0
              = ⟨Except.ok (refreshRecord r t),
                  ((fs0.mkdirTokens).addEvent Event.refreshCall).saveToken
                    (g_token_file account api_name scope_profile) (refreshRecord r t),
                  some (StoredFile.wellFormed r)⟩)
      ∨ ((fs0.store (g_token_file account api_name scope_profile) = none
            ∨ ∃ r, fs0.store (g_token_file account api_name scope_profile)
                  = some (StoredFile.wellFormed r)
                ∧ isValid r scopes = false
                ∧ (r.expired && r.refresh_token.isSome) = false)
          ∧ ((env.secretExists (resolveClientSecretG sp env) = false
                ∧ get_google_api_client api_name scope_profile account sp env fs0
                    = ⟨Except.error OAuthError.missingClientCredentials,
                        fs0.mkdirTokens,
                        fs0.store (g_token_file account api_name scope_profile)⟩)
            ∨ (env.secretExists (resolveClientSecretG sp env) = true
                ∧ env.consentResult = none
                ∧ get_google_api_client api_name scope_profile account sp env fs0
                    = ⟨Except.error OAuthError.consentFlowFailed,
                        (fs0.mkdirTokens).addEvent Event.consentLaunch,
                        fs0.store (g_token_file account api_name scope_profile)⟩)
            ∨ (∃ rc, env.secretExists (resolveClientSecretG sp env) = true
                ∧ env.consentResult = some rc
                ∧ get_google_api_client api_name scope_profile account sp env fs0
                    = ⟨Except.ok rc,
                        ((fs0.mkdirTokens).addEvent Event.consentLaunch).saveToken
                          (g_token_file account api_name scope_profile) rc,
                        fs0.store (g_token_file account api_name scope_profile)⟩)))) := by
  cases hsc : env.scopesConfig api_name scope_profile with
  | none =>
    left
    refine ⟨rfl, ?_⟩
    simp [get_google_api_client, hsc]
  | some scopes =>
    right
    refine ⟨scopes, rfl, ?_⟩
    cases hld : fs0.store (g_token_file account api_name scope_profile) with
    | none =>
      right; right; right; right
      refine ⟨Or.inl rfl, ?_⟩
      by_cases hse : env.secretExists (resolveClientSecretG sp env) = true
      · cases hcr : env.consentResult with
        | none =>
          right; left
          refine ⟨hse, rfl, ?_⟩
          simp [get_google_api_client, gConsentAndSave, hsc, hld, hse, hcr]
        | some rc =>
          right; right
          refine ⟨rc, hse, rfl, ?_⟩
          simp [get_google_api_client, gConsentAndSave, hsc, hld, hse, hcr]
      · left
        rw [Bool.not_eq_true] at hse
        refine ⟨hse, ?_⟩
        simp [get_google_api_client, gConsentAndSave, hsc, hld, hse]
    | some f =>
      cases f with
      | malformed =>
        left
        refine ⟨rfl, ?_⟩
        simp [get_google_api_client, hsc, hld]
      | wellFormed r =>
        by_cases hv : isValid r scopes = true
        · right; left
          refine ⟨r, rfl, hv, ?_⟩
          simp [get_google_api_client, hsc, hld, hv]
        · rw [Bool.not_eq_true] at hv
          by_cases hrr : (r.expired && r.refresh_token.isSome) = true
          · cases hrf : env.refreshResult with
            | none =>
              right; right; left
              refine ⟨r, rfl, hv, hrr, rfl, ?_⟩
              simp [get_google_api_client, hsc, hld, hv, hrr, hrf]
            | some t =>
              right; right; right; left
              refine ⟨r, t, rfl, hv, hrr, rfl, ?_⟩
              simp [get_google_api_client, hsc, hld, hv, hrr, hrf]
          · rw [Bool.not_eq_true] at hrr
            right; right; right; right
            refine ⟨Or.inr ⟨r, rfl, hv, hrr⟩, ?_⟩
            by_cases hse : env.secretExists (resolveClientSecretG sp env) = true
            · cases hcr : env.consentResult with
              | none =>
                right; left
                refine ⟨hse, rfl, ?_⟩
                simp [get_google_api_client, gConsentAndSave, hsc, hld, hv, hrr, hse, hcr]
              | some rc =>
                right; right
                refine ⟨rc, hse, rfl, ?_⟩
                simp [get_google_api_client, gConsentAndSave, hsc, hld, hv, hrr, hse, hcr]
            · left
              rw [Bool.not_eq_true] at hse
              refine ⟨hse, ?_⟩
              simp [get_google_api_client, gConsentAndSave, hsc, hld, hv, hrr, hse]

/-- Exhaustive case analysis of one `get_authenticated_youtube` call. -/
theorem yt_cases (account : List Char) (scopes : Option (List (List Char)))
    (sp : Option (List Char)) (headless : Bool) (env : Env) (fs0 : FS) :
    (env.secretExists (resolveClientSecretY sp env) = false
      ∧ get_authenticated_youtube account scopes sp headless env fs0
          = ⟨Except.error OAuthError.missingClientCredentials, fs0, none⟩)
    ∨ (env.secretExists (resolveClientSecretY sp env) = true
      ∧ ((∃ r, fs0.store (yt_token_file account) = some (StoredFile.wellFormed r)
            ∧ isValid r (scopes.getD ["https://www.googleapis.com/auth/youtube.readonly".data]) = true
            ∧ get_authenticated_youtube account scopes sp headless env fs0
                = ⟨Except.ok r, fs0.mkdirTokens, some (StoredFile.wellFormed r)⟩)
        ∨ (∃ r t, fs0.store (yt_token_file account) = some (StoredFile.wellFormed r)
            ∧ isValid r (scopes.getD ["https://www.googleapis.com/auth/youtube.readonly".data]) = false
            ∧ (r.expired && r.refresh_token.isSome) = true
            ∧ env.refreshResult = some t
            ∧ isValid (refreshRecord r t)
                (scopes.getD ["https://www.googleapis.com/auth/youtube.readonly".data]) = true
            ∧ get_authenticated_youtube account scopes sp headless env fs0
                = ⟨Except.ok (refreshRecord r t),
                    (((fs0.mkdirTokens).addEvent Event.refreshCall).saveToken
                      (yt_token_file account) (refreshRecord r t)).chmodTo
                      (yt_token_file account) ownerOnlyMode,
                    some (StoredFile.wellFormed r)⟩)
        ∨ (∃ fsb, (fsb = fs0.mkdirTokens
              ∨ fsb = (fs0.mkdirTokens).addEvent Event.refreshCall)
            ∧ ((env.consentResult = none
                  ∧ get_authenticated_youtube account scopes sp headless env fs0
                      = ⟨Except.error OAuthError.consentFlowFailed,
                          fsb.addEvent Event.consentLaunch,
                          fs0.store (yt_token_file account)⟩)
              ∨ (∃ rc, env.consentResult = some rc
                  ∧ get_authenticated_youtube account scopes sp headless env fs0
                      = ⟨Except.ok rc,
                          (((fsb.addEvent Event.consentLaunch).saveToken
                            (yt_token_file account) rc).chmodTo
                            (yt_token_file account) ownerOnlyMode),
                          fs0.store (yt_token_file account)⟩))))) := by
  by_cases hse : env.secretExists (resolveClientSecretY sp env) = true
  · right
    refine ⟨hse, ?_⟩
    cases hld : fs0.store (yt_token_file account) with
    | none =>
      right; right
      refine ⟨fs0.mkdirTokens, Or.inl rfl, ?_⟩
      cases hcr : env.consentResult with
      | none =>
        left
        refine ⟨rfl, ?_⟩
        simp [get_authenticated_youtube, ytConsentAndSave, hse, hld, hcr]
      | some rc =>
        right
        refine ⟨rc, rfl, ?_⟩
        simp [get_authenticated_youtube, ytConsentAndSave, hse, hld, hcr]
    | some f =>
      cases f with
      | malformed =>
        right; right
        refine ⟨fs0.mkdirTokens, Or.inl rfl, ?_⟩
        cases hcr : env.consentResult with
        | none =>
          left
          refine ⟨rfl, ?_⟩
          simp [get_authenticated_youtube, ytConsentAndSave, hse, hld, hcr]
        | some rc =>
          right
          refine ⟨rc, rfl, ?_⟩
          simp [get_authenticated_youtube, ytConsentAndSave, hse, hld, hcr]
      | wellFormed r =>
        by_cases hv : isValid r (scopes.getD
            ["https://www.googleapis.com/auth/youtube.readonly".data]) = true
        · left
          refine ⟨r, rfl, hv, ?_⟩
          simp [get_authenticated_youtube, hse, hld, hv]
        · rw [Bool.not_eq_true] at hv
          by_cases hrr : (r.expired && r.refresh_token.isSome) = true
          · cases hrf : env.refreshResult with
            | none =>
              right; right
              refine ⟨(fs0.mkdirTokens).addEvent Event.refreshCall, Or.inr rfl, ?_⟩
              cases hcr : env.consentResult with
              | none =>
                left
                refine ⟨rfl, ?_⟩
                simp [get_authenticated_youtube, ytConsentAndSave, hse, hld, hv, hrr, hrf, hcr]
              | some rc =>
                right
                refine ⟨rc, rfl, ?_⟩
                simp [get_authenticated_youtube, ytConsentAndSave, hse, hld, hv, hrr, hrf, hcr]
            | some t =>
              by_cases hv2 : isValid (refreshRecord r t) (scopes.getD
                  ["https://www.googleapis.com/auth/youtube.readonly".data]) = true
              · right; left
                refine ⟨r, t, rfl, hv, hrr, rfl, hv2, ?_⟩
                simp [get_authenticated_youtube, hse, hld, hv, hrr, hrf, hv2]
              · rw [Bool.not_eq_true] at hv2
                right; right
                refine ⟨(fs0.mkdirTokens).addEvent Event.refreshCall, Or.inr rfl, ?_⟩
                cases hcr : env.consentResult with
                | none =>
                  left
                  refine ⟨rfl, ?_⟩
                  simp [get_authenticated_youtube, ytConsentAndSave, hse, hld, hv, hrr, hrf,
                    hv2, hcr]
                | some rc =>
                  right
                  refine ⟨rc, rfl, ?_⟩
                  simp [get_authenticated_youtube, ytConsentAndSave, hse, hld, hv, hrr, hrf,
                    hv2, hcr]
          · rw [Bool.not_eq_true] at hrr
            right; right
            refine ⟨fs0.mkdirTokens, Or.inl rfl, ?_⟩
            cases hcr : env.consentResult with
            | none =>
              left
              refine ⟨rfl, ?_⟩
              simp [get_authenticated_youtube, ytConsentAndSave, hse, hld, hv, hrr, hcr]
            | some rc =>
              right
              refine ⟨rc, rfl, ?_⟩
              simp [get_authenticated_youtube, ytConsentAndSave, hse, hld, hv, hrr, hcr]
  · left
    rw [Bool.not_eq_true] at hse
    refine ⟨hse, ?_⟩
    simp [get_authenticated_youtube, hse]

/-- C2 (counterexample): the claim that the cache-key function is injective
on all triples is false — the triples `("a", "b__c", "p")` and
`("a__b", "c", "p")` are distinct yet map to the same key, because the
`__` separator is not disallowed in the normalized identity or in the api
name. -/
theorem c2_counterexample :
    tokenCacheKey "a".data "b__c".data "p".data
        = tokenCacheKey "a__b".data "c".data "p".data
      ∧ ¬(("a".data : List Char) = "a__b".data
          ∧ ("b__c".data : List Char) = "c".data
          ∧ ("p".data : List Char) = "p".data) := by
  decide

/-- C2 (amended): the cache-key function
`(identity, api, profile) ↦ normalize(identity) ++ "__" ++ api ++ "__" ++ profile`
is injective on triples whose identity, api and profile contain no
underscore character: distinct such triples always map to distinct keys. -/
theorem c2_cache_key_injective (id1 a1 p1 id2 a2 p2 : List Char)
    (h1 : '_' ∉ id1) (h2 : '_' ∉ a1) (h3 : '_' ∉ p1)
    (h4 : '_' ∉ id2) (h5 : '_' ∉ a2) (h6 : '_' ∉ p2)
    (hne : ¬(id1 = id2 ∧ a1 = a2 ∧ p1 = p2)) :
    tokenCacheKey id1 a1 p1 ≠ tokenCacheKey id2 a2 p2 :=
  fun he => hne (tokenCacheKey_inj id1 a1 p1 id2 a2 p2 h1 h2 h3 h4 h5 h6 he)

/-- Witness for `c2_cache_key_injective` at concrete inputs. -/
theorem c2_cache_key_injective_witness :
    tokenCacheKey "a@b.com".data "gmail".data "send".data
      ≠ tokenCacheKey "c@d.com".data "gmail".data "send".data :=
  c2_cache_key_injective "a@b.com".data "gmail".data "send".data
    "c@d.com".data "gmail".data "send".data
    (by decide) (by decide) (by decide) (by decide) (by decide) (by decide)
    (by decide)

/-- C9 (counterexample): the claim that for every input the output of
`normalize_account_id` contains no path separators is false — the path
separator `/` passes through unchanged. -/
theorem c9_counterexample :
    normalize_account_id "a/b".data = "a/b".data
      ∧ '/' ∈ normalize_account_id "a/b".data := by
  decide

/-- C9 (amended): for every input whose characters are safe path-segment
characters or `@` or `.`, every character of the output of
`normalize_account_id` is a safe path-segment character — in particular
the output contains no path separator and nothing requiring escaping. -/
theorem c9_normalize_safe (l : List Char)
    (h : ∀ c ∈ l, isSafeChar c = true ∨ c = '@' ∨ c = '.') :
    ∀ c ∈ normalize_account_id l, isSafeChar c = true := by
  induction l with
  | nil =>
    intro c hc
    rw [normalize_nil] at hc
    cases hc
  | cons c cs ih =>
    intro d hd
    rw [normalize_cons] at hd
    rcases List.mem_append.mp hd with hd1 | hd2
    · rcases h c (List.mem_cons_self _ _) with hs | he | he
      · have hca : ¬ c = '@' := by
          intro e
          rw [e] at hs
          exact absurd hs (by decide)
        have hcd : ¬ c = '.' := by
          intro e
          rw [e] at hs
          exact absurd hs (by decide)
        rw [show normChar c = [c] by simp [normChar, hca, hcd]] at hd1
        have hdc : d = c := by simpa using hd1
        rw [hdc]
        exact hs
      · subst he
        rw [show normChar '@' = atToken from rfl] at hd1
        have hall : ∀ x ∈ atToken, isSafeChar x = true := by decide
        exact hall d hd1
      · subst he
        rw [show normChar '.' = dotToken from rfl] at hd1
        have hall : ∀ x ∈ dotToken, isSafeChar x = true := by decide
        exact hall d hd1
    · exact ih (fun x hx => h x (List.mem_cons_of_mem _ hx)) d hd2

/-- Witness for `c9_normalize_safe` at a concrete email-like identity. -/
theorem c9_normalize_safe_witness :
    (normalize_account_id "a@b.com".data).all isSafeChar = true :=
  List.all_eq_true.mpr (c9_normalize_safe "a@b.com".data (by decide))

/-- C10: `normalize_account_id` of `my_google_api_helpers.py` and
`normalize_account_id` of `youtube_auth.py` compute the same function on
every input, so both modules agree on the on-disk naming of an account. -/
theorem c10_normalizers_agree (l : List Char) :
    normalize_account_id l = YoutubeAuth.normalize_account_id l := rfl

/-- C3: when a well-formed record is loaded from the token file,
`get_google_api_client` returns it unchanged with no store write, no
refresh and no consent launch (only possibly the `tokens/` mkdir) exactly
when the record is valid — it has a non-expired access token whose
granted scopes cover the requested scopes.  In particular a cached record
whose scopes do not cover the request is never returned as-is. -/
theorem c3_cached_reuse_iff
    (api_name scope_profile account : List Char) (sp : Option (List Char))
    (env : Env) (fs0 : FS) (scopes : List (List Char)) (r : StoredRecord)
    (hsc : env.scopesConfig api_name scope_profile = some scopes)
    (hld : fs0.store (g_token_file account api_name scope_profile)
        = some (StoredFile.wellFormed r)) :
    ((get_google_api_client api_name scope_profile account sp env fs0).result
        = Except.ok r
      ∧ ∀ e ∈ (get_google_api_client api_name scope_profile account sp
            env fs0).fs.trace.drop fs0.trace.length, e = Event.mkdirTokens)
    ↔ isValid r scopes = true := by
  rcases g_cases api_name scope_profile account sp env fs0 with
    ⟨h0, _⟩ | ⟨scopes', hsc', hbr⟩
  · rw [hsc] at h0
    cases h0
  · rw [hsc] at hsc'
    have hs' : scopes' = scopes := (Option.some.inj hsc').symm
    subst hs'
    rcases hbr with ⟨hml, _⟩ | ⟨r', hld', hv, hout⟩ | ⟨r', hld', hv, hrr, hrf, hout⟩
      | ⟨r', t, hld', hv, hrr, hrf, hout⟩ | ⟨hpre, hsub⟩
    · rw [hld] at hml
      cases hml
    · rw [hld] at hld'
      obtain rfl : r' = r := (StoredFile.wellFormed.inj (Option.some.inj hld')).symm
      rw [hout]
      constructor
      · intro _
        exact hv
      · intro _
        refine ⟨rfl, ?_⟩
        rcases FS.mkdirTokens_trace fs0 with hm | hm <;> simp [hm]
    · rw [hld] at hld'
      obtain rfl : r' = r := (StoredFile.wellFormed.inj (Option.some.inj hld')).symm
      rw [hout]
      refine iff_of_false ?_ (by simp [hv])
      rintro ⟨h1, _⟩
      cases h1
    · rw [hld] at hld'
      obtain rfl : r' = r := (StoredFile.wellFormed.inj (Option.some.inj hld')).symm
      rw [hout]
      refine iff_of_false ?_ (by simp [hv])
      rintro ⟨h1, _⟩
      have hre := Except.ok.inj h1
      rw [Bool.and_eq_true] at hrr
      have hexp := hrr.1
      have hfe := congrArg StoredRecord.expired hre
      rw [hexp] at hfe
      simp [refreshRecord] at hfe
    · rcases hpre with hnone | ⟨r', hld', hv, hrr⟩
      · rw [hld] at hnone
        cases hnone
      · rw [hld] at hld'
        obtain rfl : r' = r := (StoredFile.wellFormed.inj (Option.some.inj hld')).symm
        rcases hsub with ⟨_, hout⟩ | ⟨_, _, hout⟩ | ⟨rc, _, _, hout⟩
        · rw [hout]
          refine iff_of_false ?_ (by simp [hv])
          rintro ⟨h1, _⟩
          cases h1
        · rw [hout]
          refine iff_of_false ?_ (by simp [hv])
          rintro ⟨h1, _⟩
          cases h1
        · rw [hout]
          refine iff_of_false ?_ (by simp [hv])
          rintro ⟨_, h2⟩
          have hmem : Event.consentLaunch
              ∈ ((((fs0.mkdirTokens).addEvent Event.consentLaunch).saveToken
                  (g_token_file account api_name scope_profile) rc).trace).drop
                fs0.trace.length := by
            rcases FS.mkdirTokens_trace fs0 with hm | hm <;>
              simp [hm, List.append_assoc]
          have hcm := h2 Event.consentLaunch hmem
          cases hcm

/-- Witness for `c3_cached_reuse_iff` at concrete inputs. -/
theorem c3_cached_reuse_iff_witness :
    ((get_google_api_client "g".data "p".data "u@x".data none baseEnv c3FS).result
        = Except.ok sampleRecord
      ∧ ∀ e ∈ (get_google_api_client "g".data "p".data "u@x".data none baseEnv
            c3FS).fs.trace.drop c3FS.trace.length, e = Event.mkdirTokens)
    ↔ isValid sampleRecord ["s1".data] = true :=
  c3_cached_reuse_iff "g".data "p".data "u@x".data none baseEnv c3FS
    ["s1".data] sampleRecord (by decide) (by decide)

/-- A `get_google_api_client` call never touches token files other than
its own: the store is unchanged at every other path. -/
theorem g_store_frame (api_name scope_profile account : List Char)
    (sp : Option (List Char)) (env : Env) (fs0 : FS) (k : List Char)
    (hk : ¬ k = g_token_file account api_name scope_profile) :
    (get_google_api_client api_name scope_profile account sp env fs0).fs.store k
      = fs0.store k := by
  rcases g_cases api_name scope_profile account sp env fs0 with
    ⟨_, hout⟩ |
    ⟨_, _, ⟨_, hout⟩ | ⟨_, _, _, hout⟩ | ⟨_, _, _, _, _, hout⟩ |
      ⟨_, _, _, _, _, _, hout⟩ |
      ⟨_, ⟨_, hout⟩ | ⟨_, _, hout⟩ | ⟨_, _, _, hout⟩⟩⟩ <;>
    rw [hout] <;> simp [FS.saveToken, hk]

/-- The token file content a `get_google_api_client` call loads is exactly
the initial store content at its own key (when scope resolution
succeeds). -/
theorem g_loaded (api_name scope_profile account : List Char)
    (sp : Option (List Char)) (env : Env) (fs0 : FS) (scopes : List (List Char))
    (hsc : env.scopesConfig api_name scope_profile = some scopes) :
    (get_google_api_client api_name scope_profile account sp env fs0).loaded
      = fs0.store (g_token_file account api_name scope_profile) := by
  rcases g_cases api_name scope_profile account sp env fs0 with
    ⟨h0, _⟩ |
    ⟨_, _, ⟨hl, hout⟩ | ⟨_, hl, _, hout⟩ | ⟨_, hl, _, _, _, hout⟩ |
      ⟨_, _, hl, _, _, _, hout⟩ |
      ⟨_, ⟨_, hout⟩ | ⟨_, _, hout⟩ | ⟨_, _, _, hout⟩⟩⟩
  · rw [hsc] at h0
    cases h0
  · rw [hout]
    exact hl.symm
  · rw [hout]
    exact hl.symm
  · rw [hout]
    exact hl.symm
  · rw [hout]
    exact hl.symm
  · rw [hout]
  · rw [hout]
  · rw [hout]

/-- C1 (amended): for two requests whose (identity, api, profile) triples
are distinct and whose components contain no underscore, the credential
record cached by one request is never loaded to satisfy the other: the
cache keys differ, and the record loaded by the second call is exactly
what the initial disk already held at the second call's own key —
whatever the first call cached is invisible to it. -/
theorem c1_no_cross_triple_reuse
    (id1 a1 p1 id2 a2 p2 : List Char) (sp1 sp2 : Option (List Char))
    (env1 env2 : Env) (fs0 : FS) (scopes2 : List (List Char))
    (h1 : '_' ∉ id1) (h2 : '_' ∉ a1) (h3 : '_' ∉ p1)
    (h4 : '_' ∉ id2) (h5 : '_' ∉ a2) (h6 : '_' ∉ p2)
    (hne : ¬(id1 = id2 ∧ a1 = a2 ∧ p1 = p2))
    (hsc2 : env2.scopesConfig a2 p2 = some scopes2) :
    tokenCacheKey id1 a1 p1 ≠ tokenCacheKey id2 a2 p2
    ∧ (get_google_api_client a2 p2 id2 sp2 env2
        (get_google_api_client a1 p1 id1 sp1 env1 fs0).fs).loaded
      = fs0.store (g_token_file id2 a2 p2) := by
  have hkey : tokenCacheKey id1 a1 p1 ≠ tokenCacheKey id2 a2 p2 :=
    fun he => hne (tokenCacheKey_inj _ _ _ _ _ _ h1 h2 h3 h4 h5 h6 he)
  refine ⟨hkey, ?_⟩
  rw [g_loaded a2 p2 id2 sp2 env2 _ scopes2 hsc2]
  apply g_store_frame
  intro he
  apply hkey
  unfold g_token_file at he
  rw [List.append_assoc, List.append_assoc] at he
  have hpeel1 : tokenCacheKey id2 a2 p2 ++ ".json".data
      = tokenCacheKey id1 a1 p1 ++ ".json".data :=
    List.append_cancel_left he
  exact (List.append_cancel_right hpeel1).symm

/-- Witness for `c1_no_cross_triple_reuse` at concrete inputs. -/
theorem c1_no_cross_triple_reuse_witness :
    tokenCacheKey "a".data "g".data "p".data ≠ tokenCacheKey "b".data "g".data "p".data
    ∧ (get_google_api_client "g".data "p".data "b".data none baseEnv
        (get_google_api_client "g".data "p".data "a".data none baseEnv fsEmpty).fs).loaded
      = fsEmpty.store (g_token_file "b".data "g".data "p".data) :=
  c1_no_cross_triple_reuse "a".data "g".data "p".data "b".data "g".data "p".data
    none none baseEnv baseEnv fsEmpty ["s1".data]
    (by decide) (by decide) (by decide) (by decide) (by decide) (by decide)
    (by decide) (by decide)

/-- C1 (counterexample): the claim fails as stated — the distinct triples
`("a", "b__c", "p")` and `("a__b", "c", "p")` share a cache key, so the
record issued and cached by the first request is loaded and returned
as-is to satisfy the second request. -/
theorem c1_counterexample :
    (get_google_api_client "c".data "p".data "a__b".data none baseEnv
        (get_google_api_client "b__c".data "p".data "a".data none baseEnv fsEmpty).fs).result
      = Except.ok sampleRecord
    ∧ (get_google_api_client "c".data "p".data "a__b".data none baseEnv
        (get_google_api_client "b__c".data "p".data "a".data none baseEnv fsEmpty).fs).loaded
      = some (StoredFile.wellFormed sampleRecord)
    ∧ (get_google_api_client "c".data "p".data "a__b".data none baseEnv
        (get_google_api_client "b__c".data "p".data "a".data none baseEnv fsEmpty).fs).fs.trace.count
        Event.consentLaunch = 1
    ∧ ¬(("a".data : List Char) = "a__b".data ∧ ("b__c".data : List Char) = "c".data
        ∧ ("p".data : List Char) = "p".data) := by
  decide

/-- C4 (amended): when a cached record is expired, carries a refresh
token, and the refresh attempt fails, the two modules diverge:
`get_authenticated_youtube` absorbs the failure and falls through to
exactly one consent-flow invocation whose output is returned, while
`get_google_api_client` propagates the refresh failure to the caller and
never launches the consent flow. -/
theorem c4_refresh_failure_paths
    (r rc : StoredRecord) (env : Env) (fs0 : FS)
    (api_name scope_profile account : List Char) (sp : Option (List Char))
    (scopes : List (List Char))
    (hsc : env.scopesConfig api_name scope_profile = some scopes)
    (hg : fs0.store (g_token_file account api_name scope_profile)
        = some (StoredFile.wellFormed r))
    (hy : fs0.store (yt_token_file account) = some (StoredFile.wellFormed r))
    (hsecret : env.secretExists (resolveClientSecretY sp env) = true)
    (hinv : isValid r scopes = false)
    (hexp : r.expired = true) (hrt : r.refresh_token.isSome = true)
    (hrf : env.refreshResult = none)
    (hcons : env.consentResult = some rc) :
    (get_google_api_client api_name scope_profile account sp env fs0).result
        = Except.error OAuthError.refreshFailed
    ∧ (get_google_api_client api_name scope_profile account sp env fs0).fs.trace.count
        Event.consentLaunch = fs0.trace.count Event.consentLaunch
    ∧ (get_authenticated_youtube account (some scopes) sp false env fs0).result
        = Except.ok rc
    ∧ (get_authenticated_youtube account (some scopes) sp false env fs0).fs.trace.count
        Event.consentLaunch = fs0.trace.count Event.consentLaunch + 1 := by
  have hrr : (r.expired && r.refresh_token.isSome) = true := by
    rw [hexp, hrt]
    rfl
  refine ⟨?_, ?_, ?_, ?_⟩
  · simp [get_google_api_client, hsc, hg, hinv, hrr, hrf]
  · by_cases hd : fs0.tokensDirExists <;>
      simp [get_google_api_client, FS.mkdirTokens, hd, hsc, hg, hinv, hrr, hrf,
        List.count_append]
  · simp [get_authenticated_youtube, ytConsentAndSave, hsecret, hy, hinv, hrr, hrf, hcons]
  · by_cases hd : fs0.tokensDirExists <;>
      simp [get_authenticated_youtube, ytConsentAndSave, FS.mkdirTokens, hd, hsecret,
        hy, hinv, hrr, hrf, hcons, FS.saveToken, List.count_append]

/-- Witness for `c4_refresh_failure_paths` at concrete inputs. -/
theorem c4_refresh_failure_paths_witness :
    (get_google_api_client "g".data "p".data "u".data none baseEnv c4FS).result
        = Except.error OAuthError.refreshFailed
    ∧ (get_google_api_client "g".data "p".data "u".data none baseEnv c4FS).fs.trace.count
        Event.consentLaunch = c4FS.trace.count Event.consentLaunch
    ∧ (get_authenticated_youtube "u".data (some ["s1".data]) none false baseEnv c4FS).result
        = Except.ok sampleRecord
    ∧ (get_authenticated_youtube "u".data (some ["s1".data]) none false baseEnv c4FS).fs.trace.count
        Event.consentLaunch = c4FS.trace.count Event.consentLaunch + 1 :=
  c4_refresh_failure_paths staleRecord sampleRecord baseEnv c4FS
    "g".data "p".data "u".data none ["s1".data]
    (by decide) (by decide) (by decide) (by decide) (by decide) (by decide)
    (by decide) (by decide) (by decide)

/-- C4 (counterexample): the claim fails as stated on
`get_google_api_client` — with a stale refreshable record and a failing
refresh, the call surfaces the refresh failure and performs no
consent-flow invocation, even though the consent flow was available and
would have succeeded. -/
theorem c4_counterexample :
    (get_google_api_client "g".data "p".data "u".data none baseEnv c4FS).result
      = Except.error OAuthError.refreshFailed
    ∧ Event.consentLaunch
        ∉ (get_google_api_client "g".data "p".data "u".data none baseEnv c4FS).fs.trace
    ∧ baseEnv.consentResult = some sampleRecord := by
  decide

/-- C7 (amended): the two modules diverge on a malformed token file.
`get_authenticated_youtube` treats it as a cache miss — with the same
environment it produces the same result and the same operation trace as
when the file is absent — while `get_google_api_client` has no handler
and propagates the load failure to the caller. -/
theorem c7_corrupt_record_paths
    (account : List Char) (scopes : Option (List (List Char)))
    (sp : Option (List Char)) (headless : Bool) (env : Env) (fs0 : FS)
    (api_name scope_profile : List Char) (scs : List (List Char))
    (hsc : env.scopesConfig api_name scope_profile = some scs)
    (hgml : fs0.store (g_token_file account api_name scope_profile)
        = some StoredFile.malformed) :
    (get_google_api_client api_name scope_profile account sp env fs0).result
        = Except.error OAuthError.corruptRecord
    ∧ (get_authenticated_youtube account scopes sp headless env
          { fs0 with store := fun k => if k = yt_token_file account
              then some StoredFile.malformed else fs0.store k }).result
        = (get_authenticated_youtube account scopes sp headless env
            { fs0 with store := fun k => if k = yt_token_file account
                then none else fs0.store k }).result
    ∧ (get_authenticated_youtube account scopes sp headless env
          { fs0 with store := fun k => if k = yt_token_file account
              then some StoredFile.malformed else fs0.store k }).fs.trace
        = (get_authenticated_youtube account scopes sp headless env
            { fs0 with store := fun k => if k = yt_token_file account
                then none else fs0.store k }).fs.trace := by
  refine ⟨?_, ?_, ?_⟩
  · simp [get_google_api_client, hsc, hgml]
  · by_cases hse : env.secretExists (resolveClientSecretY sp env) = true
    · cases hcr : env.consentResult with
      | none =>
        by_cases hd : fs0.tokensDirExists <;>
          simp [get_authenticated_youtube, ytConsentAndSave, hse, hcr,
            FS.mkdirTokens, hd]
      | some rc =>
        by_cases hd : fs0.tokensDirExists <;>
          simp [get_authenticated_youtube, ytConsentAndSave, hse, hcr,
            FS.mkdirTokens, hd]
    · rw [Bool.not_eq_true] at hse
      simp [get_authenticated_youtube, hse]
  · by_cases hse : env.secretExists (resolveClientSecretY sp env) = true
    · cases hcr : env.consentResult with
      | none =>
        by_cases hd : fs0.tokensDirExists <;>
          simp [get_authenticated_youtube, ytConsentAndSave, hse, hcr,
            FS.mkdirTokens, hd]
      | some rc =>
        by_cases hd : fs0.tokensDirExists <;>
          simp [get_authenticated_youtube, ytConsentAndSave, hse, hcr,
            FS.mkdirTokens, hd, FS.saveToken]
    · rw [Bool.not_eq_true] at hse
      simp [get_authenticated_youtube, hse]

/-- Witness for `c7_corrupt_record_paths` at concrete inputs. -/
theorem c7_corrupt_record_paths_witness :
    (get_google_api_client "g".data "p".data "u".data none baseEnv c7FS).result
        = Except.error OAuthError.corruptRecord
    ∧ (get_authenticated_youtube "u".data none none false baseEnv
          { c7FS with store := fun k => if k = yt_token_file "u".data
              then some StoredFile.malformed else c7FS.store k }).result
        = (get_authenticated_youtube "u".data none none false baseEnv
            { c7FS with store := fun k => if k = yt_token_file "u".data
                then none else c7FS.store k }).result
    ∧ (get_authenticated_youtube "u".data none none false baseEnv
          { c7FS with store := fun k => if k = yt_token_file "u".data
              then some StoredFile.malformed else c7FS.store k }).fs.trace
        = (get_authenticated_youtube "u".data none none false baseEnv
            { c7FS with store := fun k => if k = yt_token_file "u".data
                then none else c7FS.store k }).fs.trace :=
  c7_corrupt_record_paths "u".data none none false baseEnv c7FS
    "g".data "p".data ["s1".data] (by decide) (by decide)

/-- C7 (counterexample): the claim fails as stated on
`get_google_api_client` — a malformed token file makes the call surface a
load error instead of proceeding as if no record existed (with no record
it would have run the consent flow and returned its output). -/
theorem c7_counterexample :
    (get_google_api_client "g".data "p".data "u".data none baseEnv c7FS).result
      = Except.error OAuthError.corruptRecord
    ∧ (get_google_api_client "g".data "p".data "u".data none baseEnv
        { c7FS with store := fun _ => none }).result = Except.ok sampleRecord := by
  decide

/-- C8 (amended): whenever the client-credentials path does not resolve
to an existing file, every call that reaches the consent step — no cached
record, or a cached record that is invalid and not refreshable — fails
with the reported missing-credentials configuration error and performs no
refresh, no consent launch and no file write; `get_authenticated_youtube`
leaves the filesystem completely untouched, while `get_google_api_client`
may still create the (empty) `tokens/` directory, which it makes before
checking the credentials path.  On the remaining consent-needing route —
an expired refreshable record whose refresh fails —
`get_google_api_client` surfaces the refresh failure before the
credentials path is ever consulted, likewise with no consent launch and
no file write. -/
theorem c8_missing_credentials_paths
    (api_name scope_profile account : List Char) (sp spy : Option (List Char))
    (env : Env) (fs0 : FS) (scopes : List (List Char))
    (scy : Option (List (List Char))) (headless : Bool)
    (hsc : env.scopesConfig api_name scope_profile = some scopes)
    (hgsec : env.secretExists (resolveClientSecretG sp env) = false)
    (hysec : env.secretExists (resolveClientSecretY spy env) = false) :
    ((fs0.store (g_token_file account api_name scope_profile) = none
        ∨ ∃ r, fs0.store (g_token_file account api_name scope_profile)
              = some (StoredFile.wellFormed r)
            ∧ isValid r scopes = false
            ∧ (r.expired && r.refresh_token.isSome) = false) →
      (get_google_api_client api_name scope_profile account sp env fs0).result
          = Except.error OAuthError.missingClientCredentials
      ∧ (∀ e ∈ (get_google_api_client api_name scope_profile account sp
            env fs0).fs.trace.drop fs0.trace.length, e = Event.mkdirTokens)
      ∧ (get_google_api_client api_name scope_profile account sp env fs0).fs.store
          = fs0.store
      ∧ (get_google_api_client api_name scope_profile account sp env fs0).fs.perms
          = fs0.perms)
    ∧ (∀ r, fs0.store (g_token_file account api_name scope_profile)
          = some (StoredFile.wellFormed r) →
        isValid r scopes = false →
        (r.expired && r.refresh_token.isSome) = true →
        env.refreshResult = none →
        (get_google_api_client api_name scope_profile account sp env fs0).result
            = Except.error OAuthError.refreshFailed
        ∧ (∀ e ∈ (get_google_api_client api_name scope_profile account sp
              env fs0).fs.trace.drop fs0.trace.length,
            e = Event.mkdirTokens ∨ e = Event.refreshCall)
        ∧ (get_google_api_client api_name scope_profile account sp env fs0).fs.store
            = fs0.store
        ∧ (get_google_api_client api_name scope_profile account sp env fs0).fs.perms
            = fs0.perms)
    ∧ get_authenticated_youtube account scy spy headless env fs0
        = ⟨Except.error OAuthError.missingClientCredentials, fs0, none⟩ := by
  refine ⟨?_, ?_, ?_⟩
  · intro hpre
    have hout : get_google_api_client api_name scope_profile account sp env fs0
        = ⟨Except.error OAuthError.missingClientCredentials, fs0.mkdirTokens,
            fs0.store (g_token_file account api_name scope_profile)⟩ := by
      rcases hpre with hnone | ⟨r, hld, hv, hrr⟩
      · simp [get_google_api_client, gConsentAndSave, hsc, hnone, hgsec]
      · simp [get_google_api_client, gConsentAndSave, hsc, hld, hv, hrr, hgsec]
    refine ⟨?_, ?_, ?_, ?_⟩
    · rw [hout]
    · rw [hout]
      rcases FS.mkdirTokens_trace fs0 with hm | hm <;> simp [hm]
    · rw [hout]
      exact FS.mkdirTokens_store fs0
    · rw [hout]
      exact FS.mkdirTokens_perms fs0
  · intro r hld hv hrr hrf
    have hout : get_google_api_client api_name scope_profile account sp env fs0
        = ⟨Except.error OAuthError.refreshFailed,
            (fs0.mkdirTokens).addEvent Event.refreshCall,
            some (StoredFile.wellFormed r)⟩ := by
      simp [get_google_api_client, hsc, hld, hv, hrr, hrf]
    refine ⟨?_, ?_, ?_, ?_⟩
    · rw [hout]
    · rw [hout]
      intro e he
      rcases FS.mkdirTokens_trace fs0 with hm | hm
      · simp [hm] at he
        simp [he]
      · simp [hm, List.append_assoc] at he
        rcases he with rfl | rfl <;> simp
    · rw [hout]
      simp
    · rw [hout]
      simp
  · simp [get_authenticated_youtube, hysec]

/-- Witness for `c8_missing_credentials_paths` at concrete inputs. -/
theorem c8_missing_credentials_paths_witness :
    ((fsEmpty.store (g_token_file "u".data "g".data "p".data) = none
        ∨ ∃ r, fsEmpty.store (g_token_file "u".data "g".data "p".data)
              = some (StoredFile.wellFormed r)
            ∧ isValid r ["s1".data] = false
            ∧ (r.expired && r.refresh_token.isSome) = false) →
      (get_google_api_client "g".data "p".data "u".data none noSecretEnv fsEmpty).result
          = Except.error OAuthError.missingClientCredentials
      ∧ (∀ e ∈ (get_google_api_client "g".data "p".data "u".data none noSecretEnv
            fsEmpty).fs.trace.drop fsEmpty.trace.length, e = Event.mkdirTokens)
      ∧ (get_google_api_client "g".data "p".data "u".data none noSecretEnv
          fsEmpty).fs.store = fsEmpty.store
      ∧ (get_google_api_client "g".data "p".data "u".data none noSecretEnv
          fsEmpty).fs.perms = fsEmpty.perms)
    ∧ (∀ r, fsEmpty.store (g_token_file "u".data "g".data "p".data)
          = some (StoredFile.wellFormed r) →
        isValid r ["s1".data] = false →
        (r.expired && r.refresh_token.isSome) = true →
        noSecretEnv.refreshResult = none →
        (get_google_api_client "g".data "p".data "u".data none noSecretEnv
            fsEmpty).result = Except.error OAuthError.refreshFailed
        ∧ (∀ e ∈ (get_google_api_client "g".data "p".data "u".data none noSecretEnv
              fsEmpty).fs.trace.drop fsEmpty.trace.length,
            e = Event.mkdirTokens ∨ e = Event.refreshCall)
        ∧ (get_google_api_client "g".data "p".data "u".data none noSecretEnv
            fsEmpty).fs.store = fsEmpty.store
        ∧ (get_google_api_client "g".data "p".data "u".data none noSecretEnv
            fsEmpty).fs.perms = fsEmpty.perms)
    ∧ get_authenticated_youtube "u".data none none false noSecretEnv fsEmpty
        = ⟨Except.error OAuthError.missingClientCredentials, fsEmpty, none⟩ :=
  c8_missing_credentials_paths "g".data "p".data "u".data none none noSecretEnv
    fsEmpty ["s1".data] none false (by decide) (by decide) (by decide)

/-- C8 (counterexample): the claim that zero files or directories are
created or modified by the failing call is false for
`get_google_api_client` — it creates the `tokens/` directory before
checking the client-credentials path. -/
theorem c8_counterexample :
    (get_google_api_client "g".data "p".data "u".data none noSecretEnv fsEmpty).result
      = Except.error OAuthError.missingClientCredentials
    ∧ (get_google_api_client "g".data "p".data "u".data none noSecretEnv
        fsEmpty).fs.tokensDirExists = true
    ∧ fsEmpty.tokensDirExists = false
    ∧ (get_google_api_client "g".data "p".data "u".data none noSecretEnv
        fsEmpty).fs.trace = [Event.mkdirTokens] := by
  decide

theorem wholeRecordSave_of_no_write (tf : List Char) (out : GOut) (newEv : List Event)
    (h : ∀ e ∈ newEv, e = Event.mkdirTokens ∨ e = Event.refreshCall
        ∨ e = Event.consentLaunch) :
    wholeRecordSave tf out newEv := by
  refine ⟨?_, ?_, ?_⟩
  · intro s d hm
    rcases h _ hm with h1 | h1 | h1 <;> simp at h1
  · intro p hm
    rcases h _ hm with h1 | h1 | h1 <;> simp at h1
  · intro p c hm
    rcases h _ hm with h1 | h1 | h1 <;> simp at h1

theorem wholeRecordSave_of_mem (tf : List Char) (out : GOut) (newEv : List Event)
    (r : StoredRecord)
    (h : ∀ e ∈ newEv, e = Event.mkdirTokens ∨ e = Event.refreshCall
        ∨ e = Event.consentLaunch ∨ e = Event.openTrunc tf
        ∨ e = Event.writeFile tf (StoredFile.wellFormed r)
        ∨ ∃ m, e = Event.chmodFile tf m)
    (hres : out.result = Except.ok r)
    (hst : out.fs.store tf = some (StoredFile.wellFormed r)) :
    wholeRecordSave tf out newEv := by
  refine ⟨?_, ?_, ?_⟩
  · intro s d hm
    rcases h _ hm with h1 | h1 | h1 | h1 | h1 | ⟨m, h1⟩ <;> simp at h1
  · intro p hm
    rcases h _ hm with h1 | h1 | h1 | h1 | h1 | ⟨m, h1⟩
    · simp at h1
    · simp at h1
    · simp at h1
    · exact Event.openTrunc.inj h1
    · simp at h1
    · simp at h1
  · intro p c hm
    rcases h _ hm with h1 | h1 | h1 | h1 | h1 | ⟨m, h1⟩
    · simp at h1
    · simp at h1
    · simp at h1
    · simp at h1
    · obtain ⟨hp, hc⟩ := Event.writeFile.inj h1
      subst hp
      subst hc
      exact ⟨rfl, r, rfl, hres, hst⟩
    · simp at h1

/-- C5 (amended): every save performed by either client replaces the
record whole — the new operations contain no rename (so no
write-to-temp-then-rename step is present), every truncate-open and every
write targets only the call's own token file, and each write stores one
complete well-formed record equal to the record the call returns and to
the final on-disk content; no field-by-field in-place edit exists.  The
write truncates the destination file directly, so the claimed atomic
temp-and-rename replacement is absent. -/
theorem c5_saves_whole_record_no_rename
    (api_name scope_profile account : List Char) (sp spy : Option (List Char))
    (scy : Option (List (List Char))) (headless : Bool) (env : Env) (fs0 : FS) :
    wholeRecordSave (g_token_file account api_name scope_profile)
      (get_google_api_client api_name scope_profile account sp env fs0)
      ((get_google_api_client api_name scope_profile account sp
          env fs0).fs.trace.drop fs0.trace.length)
    ∧ wholeRecordSave (yt_token_file account)
      (get_authenticated_youtube account scy spy headless env fs0)
      ((get_authenticated_youtube account scy spy headless env
          fs0).fs.trace.drop fs0.trace.length) := by
  constructor
  · rcases g_cases api_name scope_profile account sp env fs0 with
      ⟨_, hout⟩ |
      ⟨scopes, _, ⟨_, hout⟩ | ⟨r, _, _, hout⟩ | ⟨r, _, _, _, _, hout⟩ |
        ⟨r, t, _, _, _, _, hout⟩ |
        ⟨_, ⟨_, hout⟩ | ⟨_, _, hout⟩ | ⟨rc, _, _, hout⟩⟩⟩
    · rw [hout]
      apply wholeRecordSave_of_no_write
      intro e he
      simp at he
    · rw [hout]
      apply wholeRecordSave_of_no_write
      intro e he
      rcases FS.mkdirTokens_trace fs0 with hm | hm <;> simp [hm] at he <;> simp [he]
    · rw [hout]
      apply wholeRecordSave_of_no_write
      intro e he
      rcases FS.mkdirTokens_trace fs0 with hm | hm <;> simp [hm] at he <;> simp [he]
    · rw [hout]
      apply wholeRecordSave_of_no_write
      intro e he
      rcases FS.mkdirTokens_trace fs0 with hm | hm <;>
        simp [hm, List.append_assoc] at he <;> rcases he with rfl | rfl <;> simp
    · rw [hout]
      apply wholeRecordSave_of_mem _ _ _ (refreshRecord r t)
      · intro e he
        rcases FS.mkdirTokens_trace fs0 with hm | hm <;>
          simp [hm, List.append_assoc] at he <;>
          rcases he with rfl | rfl | rfl | rfl <;> simp
      · rfl
      · simp [FS.saveToken]
    · rw [hout]
      apply wholeRecordSave_of_no_write
      intro e he
      rcases FS.mkdirTokens_trace fs0 with hm | hm <;> simp [hm] at he <;> simp [he]
    · rw [hout]
      apply wholeRecordSave_of_no_write
      intro e he
      rcases FS.mkdirTokens_trace fs0 with hm | hm <;>
        simp [hm, List.append_assoc] at he <;> rcases he with rfl | rfl <;> simp
    · rw [hout]
      apply wholeRecordSave_of_mem _ _ _ rc
      · intro e he
        rcases FS.mkdirTokens_trace fs0 with hm | hm <;>
          simp [hm, List.append_assoc] at he <;>
          rcases he with rfl | rfl | rfl | rfl <;> simp
      · rfl
      · simp [FS.saveToken]
  · rcases yt_cases account scy spy headless env fs0 with
      ⟨_, hout⟩ |
      ⟨_, ⟨r, _, _, hout⟩ | ⟨r, t, _, _, _, _, _, hout⟩ |
        ⟨fsb, hfsb, ⟨_, hout⟩ | ⟨rc, _, hout⟩⟩⟩
    · rw [hout]
      apply wholeRecordSave_of_no_write
      intro e he
      simp at he
    · rw [hout]
      apply wholeRecordSave_of_no_write
      intro e he
      rcases FS.mkdirTokens_trace fs0 with hm | hm <;> simp [hm] at he <;> simp [he]
    · rw [hout]
      apply wholeRecordSave_of_mem _ _ _ (refreshRecord r t)
      · intro e he
        rcases FS.mkdirTokens_trace fs0 with hm | hm <;>
          simp [hm, List.append_assoc] at he <;>
          rcases he with rfl | rfl | rfl | rfl | rfl <;> simp
      · rfl
      · simp [FS.saveToken]
    · rcases hfsb with rfl | rfl
      · rw [hout]
        apply wholeRecordSave_of_no_write
        intro e he
        rcases FS.mkdirTokens_trace fs0 with hm | hm <;>
          simp [hm, List.append_assoc] at he <;> rcases he with rfl | rfl <;> simp
      · rw [hout]
        apply wholeRecordSave_of_no_write
        intro e he
        rcases FS.mkdirTokens_trace fs0 with hm | hm <;>
          simp [hm, List.append_assoc] at he <;>
          rcases he with rfl | rfl | rfl <;> simp
    · rcases hfsb with rfl | rfl
      · rw [hout]
        apply wholeRecordSave_of_mem _ _ _ rc
        · intro e he
          rcases FS.mkdirTokens_trace fs0 with hm | hm <;>
            simp [hm, List.append_assoc] at he <;>
            rcases he with rfl | rfl | rfl | rfl | rfl <;> simp
        · rfl
        · simp [FS.saveToken]
      · rw [hout]
        apply wholeRecordSave_of_mem _ _ _ rc
        · intro e he
          rcases FS.mkdirTokens_trace fs0 with hm | hm <;>
            simp [hm, List.append_assoc] at he <;>
            rcases he with rfl | rfl | rfl | rfl | rfl | rfl <;> simp
        · rfl
        · simp [FS.saveToken]

/-- C5 (counterexample): the claim that every save is an atomic
write-to-temp-then-rename replacement is false — a concrete successful
call truncate-opens the final token file in place and then writes it,
with no rename anywhere, so a crash between the truncate and the write
leaves a half-written (empty) record visible at the final path. -/
theorem c5_counterexample :
    (get_google_api_client "g".data "p".data "u".data none baseEnv fsEmpty).fs.trace
      = [Event.mkdirTokens, Event.consentLaunch,
         Event.openTrunc (g_token_file "u".data "g".data "p".data),
         Event.writeFile (g_token_file "u".data "g".data "p".data)
           (StoredFile.wellFormed sampleRecord)]
    ∧ (get_google_api_client "g".data "p".data "u".data none baseEnv
        fsEmpty).fs.trace.all (fun e => !(isRename e)) = true := by
  decide

/-- C6 (amended): `get_google_api_client` never changes file permissions
at all — no chmod ever appears among its operations — while
`get_authenticated_youtube` chmods the token file to owner-only 0600
right after every write it performs (the file having briefly existed with
the default creation mode), so after any of its calls that wrote a record
the stored file is owner-only. -/
theorem c6_chmod_paths
    (api_name scope_profile account : List Char) (sp spy : Option (List Char))
    (scy : Option (List (List Char))) (headless : Bool) (env : Env) (fs0 : FS) :
    (∀ p m, Event.chmodFile p m
        ∉ (get_google_api_client api_name scope_profile account sp
            env fs0).fs.trace.drop fs0.trace.length)
    ∧ (∀ p c, Event.writeFile p c
          ∈ (get_authenticated_youtube account scy spy headless env
              fs0).fs.trace.drop fs0.trace.length →
        Event.chmodFile p ownerOnlyMode
            ∈ (get_authenticated_youtube account scy spy headless env
                fs0).fs.trace.drop fs0.trace.length
          ∧ (get_authenticated_youtube account scy spy headless env
              fs0).fs.perms p = some ownerOnlyMode) := by
  constructor
  · rcases g_cases api_name scope_profile account sp env fs0 with
      ⟨_, hout⟩ |
      ⟨scopes, _, ⟨_, hout⟩ | ⟨r, _, _, hout⟩ | ⟨r, _, _, _, _, hout⟩ |
        ⟨r, t, _, _, _, _, hout⟩ |
        ⟨_, ⟨_, hout⟩ | ⟨_, _, hout⟩ | ⟨rc, _, _, hout⟩⟩⟩ <;>
      rw [hout] <;>
      intro p m hm <;>
      rcases FS.mkdirTokens_trace fs0 with hmt | hmt <;>
      simp [hmt, List.append_assoc] at hm
  · rcases yt_cases account scy spy headless env fs0 with
      ⟨_, hout⟩ |
      ⟨_, ⟨r, _, _, hout⟩ | ⟨r, t, _, _, _, _, _, hout⟩ |
        ⟨fsb, hfsb, ⟨_, hout⟩ | ⟨rc, _, hout⟩⟩⟩
    · rw [hout]
      intro p c hm
      simp at hm
    · rw [hout]
      intro p c hm
      rcases FS.mkdirTokens_trace fs0 with hmt | hmt <;> simp [hmt] at hm
    · rw [hout]
      intro p c hm
      rcases FS.mkdirTokens_trace fs0 with hmt | hmt <;>
        simp [hmt, List.append_assoc] at hm <;>
        obtain ⟨rfl, rfl⟩ := hm <;>
        constructor <;>
        simp [hmt, List.append_assoc, FS.chmodTo, FS.saveToken]
    · rcases hfsb with rfl | rfl <;>
        rw [hout] <;>
        intro p c hm <;>
        rcases FS.mkdirTokens_trace fs0 with hmt | hmt <;>
        simp [hmt, List.append_assoc] at hm
    · rcases hfsb with rfl | rfl <;>
        rw [hout] <;>
        intro p c hm <;>
        rcases FS.mkdirTokens_trace fs0 with hmt | hmt <;>
        simp [hmt, List.append_assoc] at hm <;>
        obtain ⟨rfl, rfl⟩ := hm <;>
        constructor <;>
        simp [hmt, List.append_assoc, FS.chmodTo, FS.saveToken]

/-- C6 (counterexample): the claim that every save sets the token file to
owner-only 0600 is false — a concrete successful `get_google_api_client`
save leaves the file at the default creation mode 0644 and its trace
contains no chmod at all. -/
theorem c6_counterexample :
    (get_google_api_client "g".data "p".data "u".data none baseEnv fsEmpty).fs.perms
        (g_token_file "u".data "g".data "p".data) = some defaultMode
    ∧ defaultMode ≠ ownerOnlyMode
    ∧ (get_google_api_client "g".data "p".data "u".data none baseEnv
        fsEmpty).fs.trace.all (fun e => !(isChmod e)) = true := by
  decide
